import Mathlib

/-!
Verification development for the snotify notification dispatcher.

The embedding translates `snotify/core.py` (the dispatch engine `ANotifier`,
its synchronous adapter `Notifier`, channel registration and auto-naming) and
the three concrete channels (`snotify/channels/telegram.py`, `email.py`,
`webhook.py`) into Lean.  Python strings are sequences of code points, so the
Python string methods used by the source (`str.lower`, `str.replace`,
`str.startswith`) are embedded as operations on `List Char`.  A channel's
network transport is modelled as an explicit function field (the response the
network would give to the exact request the source builds), so every
definition is executable.
-/

namespace Snotify

/-- Python `str.lower`: lower-case every code point. -/
def pylower (s : String) : String :=
  ⟨s.data.map Char.toLower⟩

/-- Python `str.startswith`: code-point prefix test. -/
def pystartswith (s pre : String) : Bool :=
  pre.data.isPrefixOf s.data

/-- Helper for `pyreplace`: one scan, replacing left-to-right non-overlapping
occurrences of `pat` by `repl`.  The fuel argument starts at the length of the
scanned list; each step consumes at least one character (the pattern of
interest, "channel", is non-empty), so the fuel never runs out. -/
def pyreplaceAux (pat repl : List Char) : Nat → List Char → List Char
  | 0, s => s
  | _, [] => []
  | fuel + 1, c :: rest =>
    if pat.isPrefixOf (c :: rest) then
      repl ++ pyreplaceAux pat repl fuel ((c :: rest).drop pat.length)
    else
      c :: pyreplaceAux pat repl fuel rest

/-- Python `str.replace(pat, repl)`: replace every non-overlapping occurrence
of `pat`, scanning left to right.  (Python's behaviour for an empty pattern is
irrelevant here: the source only replaces the non-empty literal "channel".) -/
def pyreplace (s pat repl : String) : String :=
  if pat.isEmpty then s
  else ⟨pyreplaceAux pat.data repl.data s.data.length s.data⟩

/-- A recipient as the engine sees it (`BaseRecipient`): an identifier
(`get_recipient_id`) and a display name (`get_recipient_name`). -/
structure BaseRecipient where
  id : String
  name : String
deriving DecidableEq, Repr

/-- The exception a channel's `send` raises when delivery fails
(`RuntimeError(error_msg)` in the concrete channels); the spec's
`DeliveryError`. -/
structure DeliveryError where
  msg : String
deriving DecidableEq, Repr

/-- The exception `validate_config` raises on invalid configuration
(`ValueError` / recipient-type errors in the concrete channels); the spec's
`ConfigurationError`. -/
structure ConfigurationError where
  msg : String
deriving DecidableEq, Repr

/-- A channel as the engine sees it: an opaque `BaseChannel` instance.
`className` is the Python `channel.__class__.__name__` used for auto-naming,
`recipients` the channel's own configured default recipient list,
`validate_config` the outcome of `channel.validate_config()` (`none` = passes),
and `send` the outcome of awaiting `channel.send(message, recipients)` on the
already-resolved recipient list (the engine only observes success or the
raised exception). -/
structure Channel where
  className : String
  recipients : List BaseRecipient
  validate_config : Option ConfigurationError
  send : String → List BaseRecipient → Except DeliveryError Unit

/-- One registry entry: the dict `{"name": name, "channel": channel}` appended
by `add_channel`. -/
structure RegEntry where
  name : String
  channel : Channel

/-- The error `ANotifier.send` lets escape: in broadcast mode the failing
channel's exception re-raised verbatim (`except Exception: raise`), in
fallback mode `RuntimeError("All notification channels failed.")`, which the
spec calls `AllChannelsFailedError`. -/
inductive SendError where
  | delivery (e : DeliveryError)
  | allChannelsFailed
deriving DecidableEq, Repr

/-- One channel invocation performed during a `send` call: the registry name
under which the channel was found, the channel object itself, and the
recipient list passed to `channel.send`. -/
structure Invocation where
  name : String
  channel : Channel
  recipients : List BaseRecipient

/-- Observable result of one `ANotifier.send` call: the channel invocations
in order, the "Channel {name} not found" warnings logged for unresolvable
fallback names in order, and the overall outcome. -/
structure SendResult where
  invocations : List Invocation
  warnings : List String
  outcome : Except SendError Unit

/-- The asynchronous dispatch engine `ANotifier`: the channel registry and the
fallback order. -/
structure ANotifier where
  channels : List RegEntry
  fallback_order : List String

/-- Embeds the Python argument resolution `recipients or channel.recipients`
in `ANotifier.send`: `None` and the empty list are both falsy, so an explicit
empty list falls back to the channel's own default recipients. -/
def resolve_recipients (recipients : Option (List BaseRecipient))
    (channel : Channel) : List BaseRecipient :=
  match recipients with
  | none => channel.recipients
  | some rs => if rs.isEmpty then channel.recipients else rs

/-- Broadcast branch of `ANotifier.send` (fallback order unset): iterate the
registry in registration order; `except Exception: raise` re-raises the first
failure verbatim and aborts the loop. -/
def broadcastSend (channels : List RegEntry) (message : String)
    (recipients : Option (List BaseRecipient)) : SendResult :=
  match channels with
  | [] => ⟨[], [], .ok ()⟩
  | entry :: rest =>
    let rs := resolve_recipients recipients entry.channel
    match entry.channel.send message rs with
    | .error e => ⟨[⟨entry.name, entry.channel, rs⟩], [], .error (.delivery e)⟩
    | .ok () =>
      let r := broadcastSend rest message recipients
      ⟨⟨entry.name, entry.channel, rs⟩ :: r.invocations, r.warnings, r.outcome⟩

/-- Registry lookup in the fallback branch:
`next((ch for ch in self.channels if ch["name"] == name), None)` — first
match in registration order. -/
def lookupChannel (channels : List RegEntry) (name : String) : Option Channel :=
  (channels.find? (fun ch => ch.name == name)).map (fun ch => ch.channel)

/-- Fallback branch of `ANotifier.send`: walk the fallback order; a missing
name logs a warning and continues; a successful send breaks out; a failing
send is logged and swallowed; the for-else raises
`RuntimeError("All notification channels failed.")` when the loop finishes
without a break. -/
def fallbackSend (channels : List RegEntry) (order : List String)
    (message : String) (recipients : Option (List BaseRecipient)) : SendResult :=
  match order with
  | [] => ⟨[], [], .error .allChannelsFailed⟩
  | name :: rest =>
    match lookupChannel channels name with
    | none =>
      let r := fallbackSend channels rest message recipients
      ⟨r.invocations, name :: r.warnings, r.outcome⟩
    | some channel =>
      let rs := resolve_recipients recipients channel
      match channel.send message rs with
      | .ok () => ⟨[⟨name, channel, rs⟩], [], .ok ()⟩
      | .error _ =>
        let r := fallbackSend channels rest message recipients
        ⟨⟨name, channel, rs⟩ :: r.invocations, r.warnings, r.outcome⟩

/-- The engine's `ANotifier.send`: broadcast when `self.fallback_order` is
falsy (empty), otherwise the fallback-chain algorithm. -/
def ANotifier.send (n : ANotifier) (message : String)
    (recipients : Option (List BaseRecipient)) : SendResult :=
  if n.fallback_order.isEmpty then
    broadcastSend n.channels message recipients
  else
    fallbackSend n.channels n.fallback_order message recipients

/-- State-passing form of `ANotifier.send`: the method body reads
`self.channels` and `self.fallback_order` but contains no assignment to
either, so the post-state is the pre-state. -/
def ANotifier.sendSt (n : ANotifier) (message : String)
    (recipients : Option (List BaseRecipient)) : ANotifier × SendResult :=
  (n, n.send message recipients)

/-- Auto-name derivation in `add_channel`:
`base_name = channel.__class__.__name__.lower().replace("channel", "")`, then
count the already-registered names starting with `base_name`. -/
def autoName (channels : List RegEntry) (className : String) : String :=
  let base_name := pyreplace (pylower className) "channel" ""
  let similar_channels := channels.filter (fun ch => pystartswith ch.name base_name)
  if similar_channels.isEmpty then base_name
  else base_name ++ "_" ++ toString similar_channels.length

/-- The engine's `ANotifier.add_channel`: validate the channel (propagating
`ConfigurationError`, in which case nothing is registered), derive a name when
none is given, and append the entry to the registry. -/
def ANotifier.add_channel (n : ANotifier) (channel : Channel)
    (name : Option String) : Except ConfigurationError ANotifier :=
  match channel.validate_config with
  | some e => .error e
  | none =>
    let nm := match name with
      | some s => s
      | none => autoName n.channels channel.className
    .ok ⟨n.channels ++ [⟨nm, channel⟩], n.fallback_order⟩

/-- The engine's `ANotifier.set_fallback_order`: wholesale replacement. -/
def ANotifier.set_fallback_order (n : ANotifier) (order : List String) : ANotifier :=
  ⟨n.channels, order⟩

/-- The synchronous adapter `Notifier`: same registry and fallback order (the
`ThreadPoolExecutor` field has no observable effect on dispatch). -/
structure Notifier where
  channels : List RegEntry
  fallback_order : List String

/-- The adapter's `Notifier.add_channel`: textually the same body as
`ANotifier.add_channel`. -/
def Notifier.add_channel (n : Notifier) (channel : Channel)
    (name : Option String) : Except ConfigurationError Notifier :=
  match channel.validate_config with
  | some e => .error e
  | none =>
    let nm := match name with
      | some s => s
      | none => autoName n.channels channel.className
    .ok ⟨n.channels ++ [⟨nm, channel⟩], n.fallback_order⟩

/-- The adapter's `Notifier.set_fallback_order`. -/
def Notifier.set_fallback_order (n : Notifier) (order : List String) : Notifier :=
  ⟨n.channels, order⟩

/-- The adapter's `Notifier.send`: builds a fresh `ANotifier`, copies
`self.channels` and `self.fallback_order` onto it, and drives
`ANotifier.send` to completion with `asyncio.run`, re-raising whatever it
raises.  `asyncio.run` of the single coroutine is modelled as running the
embedded `ANotifier.send` to its result. -/
def Notifier.send (n : Notifier) (message : String)
    (recipients : Option (List BaseRecipient)) : SendResult :=
  ANotifier.send ⟨n.channels, n.fallback_order⟩ message recipients

/-- An HTTP response as the aiohttp code observes it: `response.status` and
`await response.text()`. -/
structure HttpResponse where
  status : Nat
  text : String
deriving DecidableEq, Repr

/-- The Telegram channel (`TelegramChannel`): bot token, default recipients,
and the network modelled as the response to `session.post(url, json=payload)`
for the payload fields the source sends (`chat_id`, `text`). -/
structure TelegramChannel where
  bot_token : String
  recipients : List BaseRecipient
  net : String → String → String → HttpResponse

/-- Per-recipient loop of `TelegramChannel.send`: post to the bot API for each
recipient in turn; a non-200 status raises `RuntimeError(error_msg)` at once,
abandoning the rest of the list.  Returns the recipients actually attempted,
in order, with the outcome. -/
def TelegramChannel.sendLoop (c : TelegramChannel) (message : String) :
    List BaseRecipient → List BaseRecipient × Except DeliveryError Unit
  | [] => ([], .ok ())
  | r :: rest =>
    let url := "https://api.telegram.org/bot" ++ c.bot_token ++ "/sendMessage"
    let response := c.net url r.id message
    if response.status == 200 then
      let res := TelegramChannel.sendLoop c message rest
      (r :: res.1, res.2)
    else
      ([r], .error ⟨"Failed to send to " ++ r.name ++ ": " ++ response.text⟩)

/-- The channel's `TelegramChannel.send`:
`recipients_to_use = recipients if recipients is not None else self.recipients`
then the per-recipient loop. -/
def TelegramChannel.send (c : TelegramChannel) (message : String)
    (recipients : Option (List BaseRecipient)) :
    List BaseRecipient × Except DeliveryError Unit :=
  let recipients_to_use := match recipients with
    | some rs => rs
    | none => c.recipients
  TelegramChannel.sendLoop c message recipients_to_use

/-- The `EmailMessage` the email channel builds per recipient. -/
structure EmailMessage where
  From : String
  To : String
  Subject : String
  content : String
deriving DecidableEq, Repr

/-- The email channel (`EmailChannel`): SMTP settings, default recipients
(each either a bare address string or a recipient object, as the source's
`Union[List[BaseRecipient], List[str]]`), and the transport modelled as the
outcome of `aiosmtplib.send(email, ...)` (`none` = success, `some e` = the
exception's string form). -/
structure EmailChannel where
  smtp_server : String
  smtp_port : Nat
  smtp_user : String
  smtp_password : String
  recipients : List (Sum String BaseRecipient)
  smtp : EmailMessage → Option String

/-- The str-to-recipient coercion in the email loop:
`EmailRecipient(name=recipient, email=recipient)` when the entry is a string. -/
def EmailChannel.coerceRecipient : Sum String BaseRecipient → BaseRecipient
  | .inl s => ⟨s, s⟩
  | .inr r => r

/-- Per-recipient loop of `EmailChannel.send`: build the message, send it over
SMTP; an exception raises `RuntimeError(error_msg)` at once, abandoning the
rest of the list. -/
def EmailChannel.sendLoop (c : EmailChannel) (message subject : String) :
    List (Sum String BaseRecipient) → List BaseRecipient × Except DeliveryError Unit
  | [] => ([], .ok ())
  | r0 :: rest =>
    let recipient := EmailChannel.coerceRecipient r0
    let email : EmailMessage := ⟨c.smtp_user, recipient.id, subject, message⟩
    match c.smtp email with
    | none =>
      let res := EmailChannel.sendLoop c message subject rest
      (recipient :: res.1, res.2)
    | some e =>
      ([recipient], .error ⟨"Failed to send email to " ++ recipient.name ++ ": " ++ e⟩)

/-- The channel's `EmailChannel.send` (default subject "Notification"). -/
def EmailChannel.send (c : EmailChannel) (message : String) (subject : String)
    (recipients : Option (List (Sum String BaseRecipient))) :
    List BaseRecipient × Except DeliveryError Unit :=
  let recipients_to_use := match recipients with
    | some rs => rs
    | none => c.recipients
  EmailChannel.sendLoop c message subject recipients_to_use

/-- The webhook channel (`WebhookChannel`): target URL, default recipients,
and the network modelled as the response to posting the payload fields the
source sends (`recipient`, `message`) to the URL. -/
structure WebhookChannel where
  webhook_url : String
  recipients : List (Sum String BaseRecipient)
  net : String → String → String → HttpResponse

/-- The str-to-recipient coercion in the webhook loop:
`WebhookRecipient(name=recipient, identifier=recipient)`. -/
def WebhookChannel.coerceRecipient : Sum String BaseRecipient → BaseRecipient
  | .inl s => ⟨s, s⟩
  | .inr r => r

/-- Per-recipient loop of `WebhookChannel.send`: post the payload for each
recipient; a non-200 status raises `RuntimeError(error_msg)` at once,
abandoning the rest of the list. -/
def WebhookChannel.sendLoop (c : WebhookChannel) (message : String) :
    List (Sum String BaseRecipient) → List BaseRecipient × Except DeliveryError Unit
  | [] => ([], .ok ())
  | r0 :: rest =>
    let recipient := WebhookChannel.coerceRecipient r0
    let response := c.net c.webhook_url recipient.id message
    if response.status == 200 then
      let res := WebhookChannel.sendLoop c message rest
      (recipient :: res.1, res.2)
    else
      ([recipient], .error ⟨"Failed to send to " ++ recipient.name⟩)

/-- The channel's `WebhookChannel.send`. -/
def WebhookChannel.send (c : WebhookChannel) (message : String)
    (recipients : Option (List (Sum String BaseRecipient))) :
    List BaseRecipient × Except DeliveryError Unit :=
  let recipients_to_use := match recipients with
    | some rs => rs
    | none => c.recipients
  WebhookChannel.sendLoop c message recipients_to_use

/-- Modelled from the spec (section 4.2): the spec's own wording of base-name
derivation, "lower-cased class/type tag of the channel with any trailing
channel suffix stripped" — used only to compare the spec's naming rule with
the source's `replace`-based rule. -/
def specBaseName (className : String) : String :=
  let l := (pylower className).data
  if ("channel".data).isSuffixOf l then ⟨l.take (l.length - 7)⟩ else ⟨l⟩

/-- When every registered channel succeeds, the broadcast loop invokes each
entry once, in registration order, and returns success. -/
theorem broadcastSend_all_ok (message : String)
    (recipients : Option (List BaseRecipient)) :
    ∀ channels : List RegEntry,
      (∀ e ∈ channels,
        e.channel.send message (resolve_recipients recipients e.channel) = .ok ()) →
      broadcastSend channels message recipients =
        ⟨channels.map
          (fun e => ⟨e.name, e.channel, resolve_recipients recipients e.channel⟩),
         [], .ok ()⟩
  | [], _ => by simp [broadcastSend]
  | e :: rest, h => by
    have he := h e (List.mem_cons_self _ _)
    have ih := broadcastSend_all_ok message recipients rest
      (fun x hx => h x (List.mem_cons_of_mem _ hx))
    simp [broadcastSend, he, ih]

/-- When every entry before some failing entry succeeds, the broadcast loop
invokes exactly the prefix up to the failing entry and re-raises that entry's
error verbatim. -/
theorem broadcastSend_first_fail (message : String)
    (recipients : Option (List BaseRecipient)) :
    ∀ (pre : List RegEntry) (failEntry : RegEntry) (post : List RegEntry)
      (e : DeliveryError),
      (∀ en ∈ pre,
        en.channel.send message (resolve_recipients recipients en.channel) = .ok ()) →
      failEntry.channel.send message
          (resolve_recipients recipients failEntry.channel) = .error e →
      broadcastSend (pre ++ failEntry :: post) message recipients =
        ⟨(pre ++ [failEntry]).map
          (fun en => ⟨en.name, en.channel, resolve_recipients recipients en.channel⟩),
         [], .error (.delivery e)⟩
  | [], failEntry, post, e, _, hf => by simp [broadcastSend, hf]
  | en :: rest, failEntry, post, e, h, hf => by
    have he := h en (List.mem_cons_self _ _)
    have ih := broadcastSend_first_fail message recipients rest failEntry post e
      (fun x hx => h x (List.mem_cons_of_mem _ hx)) hf
    simp [broadcastSend, he, ih]

/-- When no resolvable name in the order succeeds, the fallback loop invokes
every resolvable name once, warns on every unresolvable name, and raises the
aggregate error. -/
theorem fallbackSend_all_fail (channels : List RegEntry) (message : String)
    (recipients : Option (List BaseRecipient)) :
    ∀ order : List String,
      (∀ nm ∈ order, ∀ c, lookupChannel channels nm = some c →
        ∃ err, c.send message (resolve_recipients recipients c) = .error err) →
      fallbackSend channels order message recipients =
        ⟨order.filterMap (fun nm => (lookupChannel channels nm).map
            (fun c => ⟨nm, c, resolve_recipients recipients c⟩)),
         order.filter (fun nm => (lookupChannel channels nm).isNone),
         .error .allChannelsFailed⟩
  | [], _ => by simp [fallbackSend]
  | nm :: rest, h => by
    have ih := fallbackSend_all_fail channels message recipients rest
      (fun x hx c hc => h x (List.mem_cons_of_mem _ hx) c hc)
    match hc : lookupChannel channels nm with
    | none => simp [fallbackSend, hc, ih]
    | some c =>
      obtain ⟨err, herr⟩ := h nm (List.mem_cons_self _ _) c hc
      simp [fallbackSend, hc, herr, ih]

/-- Every invocation the broadcast loop performs passes the resolved recipient
list of its own channel. -/
theorem broadcastSend_inv_recipients (message : String)
    (recipients : Option (List BaseRecipient)) :
    ∀ channels : List RegEntry,
      ∀ inv ∈ (broadcastSend channels message recipients).invocations,
        inv.recipients = resolve_recipients recipients inv.channel
  | [], inv, hmem => by simp [broadcastSend] at hmem
  | e :: rest, inv, hmem => by
    have ih := broadcastSend_inv_recipients message recipients rest
    match hs : e.channel.send message (resolve_recipients recipients e.channel) with
    | .error err =>
      simp [broadcastSend, hs] at hmem
      simp [hmem]
    | .ok () =>
      simp [broadcastSend, hs] at hmem
      rcases hmem with h1 | h2
      · simp [h1]
      · exact ih inv h2

/-- Every invocation the fallback loop performs passes the resolved recipient
list of its own channel. -/
theorem fallbackSend_inv_recipients (channels : List RegEntry) (message : String)
    (recipients : Option (List BaseRecipient)) :
    ∀ order : List String,
      ∀ inv ∈ (fallbackSend channels order message recipients).invocations,
        inv.recipients = resolve_recipients recipients inv.channel
  | [], inv, hmem => by simp [fallbackSend] at hmem
  | nm :: rest, inv, hmem => by
    have ih := fallbackSend_inv_recipients channels message recipients rest
    match hc : lookupChannel channels nm with
    | none =>
      simp [fallbackSend, hc] at hmem
      exact ih inv hmem
    | some c =>
      match hs : c.send message (resolve_recipients recipients c) with
      | .ok () =>
        simp [fallbackSend, hc, hs] at hmem
        simp [hmem]
      | .error err =>
        simp [fallbackSend, hc, hs] at hmem
        rcases hmem with h1 | h2
        · simp [h1]
        · exact ih inv h2

/-- Every invocation `ANotifier.send` performs passes the resolved recipient
list of its own channel (both modes). -/
theorem send_inv_recipients (n : ANotifier) (message : String)
    (recipients : Option (List BaseRecipient)) :
    ∀ inv ∈ (n.send message recipients).invocations,
      inv.recipients = resolve_recipients recipients inv.channel := by
  intro inv hmem
  unfold ANotifier.send at hmem
  by_cases h : n.fallback_order.isEmpty
  · rw [if_pos h] at hmem
    exact broadcastSend_inv_recipients message recipients n.channels inv hmem
  · rw [if_neg h] at hmem
    exact fallbackSend_inv_recipients n.channels message recipients n.fallback_order inv hmem

/-- The names of the invocations the fallback loop would perform are exactly
the resolvable names of the order, in order. -/
theorem filterMap_name_eq_filter (channels : List RegEntry)
    (f : Channel → List BaseRecipient) :
    ∀ order : List String,
      (order.filterMap (fun nm => (lookupChannel channels nm).map
          (fun c => Invocation.mk nm c (f c)))).map (fun i => i.name)
        = order.filter (fun nm => (lookupChannel channels nm).isSome)
  | [] => rfl
  | nm :: rest => by
    have ih := filterMap_name_eq_filter channels f rest
    match hc : lookupChannel channels nm with
    | none => simp [hc, ih]
    | some c => simp [hc, ih]

/-- Concrete recipient used in witnesses. -/
def wRecA : BaseRecipient := ⟨"1", "A"⟩

/-- Concrete recipient used in witnesses. -/
def wRecB : BaseRecipient := ⟨"2", "B"⟩

/-- Concrete always-succeeding channel used in witnesses. -/
def wChOk : Channel := ⟨"MockChannel", [wRecA], none, fun _ _ => .ok ()⟩

/-- Concrete always-failing channel used in witnesses. -/
def wChFail : Channel := ⟨"MockChannel", [wRecB], none, fun _ _ => .error ⟨"boom"⟩⟩

/-- C1: in fallback mode with order `[x, y]`, when `x` resolves and fails with
a `DeliveryError` and `y` resolves and succeeds, `send` invokes `x` then `y`
with their resolved recipients, reports overall success, and performs no
further invocation. -/
theorem fallback_first_success_stops (channels : List RegEntry) (x y : String)
    (cx cy : Channel) (message : String) (recipients : Option (List BaseRecipient))
    (e : DeliveryError)
    (hx : lookupChannel channels x = some cx)
    (hy : lookupChannel channels y = some cy)
    (hfx : cx.send message (resolve_recipients recipients cx) = .error e)
    (hsy : cy.send message (resolve_recipients recipients cy) = .ok ()) :
    ANotifier.send ⟨channels, [x, y]⟩ message recipients =
      ⟨[⟨x, cx, resolve_recipients recipients cx⟩,
        ⟨y, cy, resolve_recipients recipients cy⟩], [], .ok ()⟩ := by
  simp [ANotifier.send, fallbackSend, hx, hy, hfx, hsy]

/-- Witness for C1 at a concrete failing-then-succeeding registry. -/
theorem fallback_first_success_stops_witness :
    lookupChannel [⟨"x", wChFail⟩, ⟨"y", wChOk⟩] "x" = some wChFail
    ∧ lookupChannel [⟨"x", wChFail⟩, ⟨"y", wChOk⟩] "y" = some wChOk
    ∧ wChFail.send "m" (resolve_recipients none wChFail) = .error ⟨"boom"⟩
    ∧ wChOk.send "m" (resolve_recipients none wChOk) = .ok ()
    ∧ ANotifier.send ⟨[⟨"x", wChFail⟩, ⟨"y", wChOk⟩], ["x", "y"]⟩ "m" none =
        ⟨[⟨"x", wChFail, resolve_recipients none wChFail⟩,
          ⟨"y", wChOk, resolve_recipients none wChOk⟩], [], .ok ()⟩ :=
  ⟨rfl, rfl, rfl, rfl,
    fallback_first_success_stops [⟨"x", wChFail⟩, ⟨"y", wChOk⟩] "x" "y"
      wChFail wChOk "m" none ⟨"boom"⟩ rfl rfl rfl rfl⟩

/-- C2: in broadcast mode the engine walks the registry in registration
order; if every channel succeeds each is invoked exactly once and the call
succeeds, and if a channel fails the first failure is propagated verbatim and
no later channel is invoked. -/
theorem broadcast_order_and_failfast (channels : List RegEntry)
    (message : String) (recipients : Option (List BaseRecipient)) :
    ((∀ e ∈ channels,
        e.channel.send message (resolve_recipients recipients e.channel) = .ok ()) →
      ANotifier.send ⟨channels, []⟩ message recipients =
        ⟨channels.map
          (fun e => ⟨e.name, e.channel, resolve_recipients recipients e.channel⟩),
         [], .ok ()⟩)
    ∧ (∀ (pre : List RegEntry) (failEntry : RegEntry) (post : List RegEntry)
          (err : DeliveryError),
        channels = pre ++ failEntry :: post →
        (∀ en ∈ pre,
          en.channel.send message (resolve_recipients recipients en.channel) = .ok ()) →
        failEntry.channel.send message
            (resolve_recipients recipients failEntry.channel) = .error err →
        ANotifier.send ⟨channels, []⟩ message recipients =
          ⟨(pre ++ [failEntry]).map
            (fun en => ⟨en.name, en.channel, resolve_recipients recipients en.channel⟩),
           [], .error (.delivery err)⟩) := by
  constructor
  · intro h
    simpa [ANotifier.send] using broadcastSend_all_ok message recipients channels h
  · intro pre failEntry post err hch hpre hfail
    subst hch
    simpa [ANotifier.send] using
      broadcastSend_first_fail message recipients pre failEntry post err hpre hfail

/-- Witness for C2 at a concrete registry whose second channel fails. -/
theorem broadcast_order_and_failfast_witness :
    ([⟨"a", wChOk⟩, ⟨"b", wChFail⟩, ⟨"c", wChOk⟩] : List RegEntry) =
      [⟨"a", wChOk⟩] ++ ⟨"b", wChFail⟩ :: [⟨"c", wChOk⟩]
    ∧ wChFail.send "m" (resolve_recipients none wChFail) = .error ⟨"boom"⟩
    ∧ ANotifier.send ⟨[⟨"a", wChOk⟩, ⟨"b", wChFail⟩, ⟨"c", wChOk⟩], []⟩ "m" none =
        ⟨(([⟨"a", wChOk⟩] ++ [⟨"b", wChFail⟩] : List RegEntry)).map
          (fun en => ⟨en.name, en.channel, resolve_recipients none en.channel⟩),
         [], .error (.delivery ⟨"boom"⟩)⟩ := by
  refine ⟨rfl, rfl, ?_⟩
  exact (broadcast_order_and_failfast
      [⟨"a", wChOk⟩, ⟨"b", wChFail⟩, ⟨"c", wChOk⟩] "m" none).2
    [⟨"a", wChOk⟩] ⟨"b", wChFail⟩ [⟨"c", wChOk⟩] ⟨"boom"⟩ rfl
    (by intro en hen; simp only [List.mem_singleton] at hen; subst hen; rfl) rfl

/-- C3: in fallback mode, when no resolvable name in the (non-empty) order
succeeds, `send` raises the aggregate error (not any underlying
`DeliveryError`) after invoking each resolvable name of the order exactly
once, in order; the invoked names are exactly the resolvable names. -/
theorem fallback_exhausted_raises_aggregate (channels : List RegEntry)
    (order : List String) (message : String)
    (recipients : Option (List BaseRecipient))
    (hne : order ≠ [])
    (hfail : ∀ nm ∈ order, ∀ c, lookupChannel channels nm = some c →
      ∃ err, c.send message (resolve_recipients recipients c) = .error err) :
    ANotifier.send ⟨channels, order⟩ message recipients =
      ⟨order.filterMap (fun nm => (lookupChannel channels nm).map
          (fun c => ⟨nm, c, resolve_recipients recipients c⟩)),
       order.filter (fun nm => (lookupChannel channels nm).isNone),
       .error .allChannelsFailed⟩
    ∧ (ANotifier.send ⟨channels, order⟩ message recipients).invocations.map
        (fun i => i.name)
      = order.filter (fun nm => (lookupChannel channels nm).isSome) := by
  have hmain : ANotifier.send ⟨channels, order⟩ message recipients =
      ⟨order.filterMap (fun nm => (lookupChannel channels nm).map
          (fun c => ⟨nm, c, resolve_recipients recipients c⟩)),
       order.filter (fun nm => (lookupChannel channels nm).isNone),
       .error .allChannelsFailed⟩ := by
    cases order with
    | nil => exact absurd rfl hne
    | cons a rest =>
      simpa [ANotifier.send] using
        fallbackSend_all_fail channels message recipients (a :: rest) hfail
  refine ⟨hmain, ?_⟩
  rw [hmain]
  exact filterMap_name_eq_filter channels
    (fun c => resolve_recipients recipients c) order

/-- Witness for C3 at a concrete registry: one failing channel, one
unresolvable name. -/
theorem fallback_exhausted_raises_aggregate_witness :
    (["x", "ghost"] : List String) ≠ []
    ∧ (∀ nm ∈ (["x", "ghost"] : List String), ∀ c,
        lookupChannel [⟨"x", wChFail⟩] nm = some c →
        ∃ err, c.send "m" (resolve_recipients none c) = .error err)
    ∧ ANotifier.send ⟨[⟨"x", wChFail⟩], ["x", "ghost"]⟩ "m" none =
        ⟨(["x", "ghost"] : List String).filterMap
            (fun nm => (lookupChannel [⟨"x", wChFail⟩] nm).map
              (fun c => ⟨nm, c, resolve_recipients none c⟩)),
         (["x", "ghost"] : List String).filter
            (fun nm => (lookupChannel [⟨"x", wChFail⟩] nm).isNone),
         .error .allChannelsFailed⟩ := by
  have hfail : ∀ nm ∈ (["x", "ghost"] : List String), ∀ c,
      lookupChannel [⟨"x", wChFail⟩] nm = some c →
      ∃ err, c.send "m" (resolve_recipients none c) = .error err := by
    intro nm hnm c hc
    simp only [List.mem_cons, List.mem_singleton] at hnm
    rcases hnm with rfl | rfl | h
    · have : some wChFail = some c := (rfl : lookupChannel [⟨"x", wChFail⟩] "x" = some wChFail).symm.trans hc
      cases this
      exact ⟨⟨"boom"⟩, rfl⟩
    · exact Option.noConfusion ((rfl : lookupChannel [⟨"x", wChFail⟩] "ghost" = none).symm.trans hc)
    · cases h
  exact ⟨by simp, hfail,
    (fallback_exhausted_raises_aggregate [⟨"x", wChFail⟩] ["x", "ghost"] "m" none
      (by simp) hfail).1⟩

/-- C7: in fallback mode an unresolvable name is skipped with a warning: with
order `[missing, y]` where only `y` resolves and succeeds, `send` warns for
`missing` and succeeds via the single invocation of `y`. -/
theorem fallback_missing_name_skipped (channels : List RegEntry)
    (missing y : String) (cy : Channel) (message : String)
    (recipients : Option (List BaseRecipient))
    (hm : lookupChannel channels missing = none)
    (hy : lookupChannel channels y = some cy)
    (hsy : cy.send message (resolve_recipients recipients cy) = .ok ()) :
    ANotifier.send ⟨channels, [missing, y]⟩ message recipients =
      ⟨[⟨y, cy, resolve_recipients recipients cy⟩], [missing], .ok ()⟩ := by
  simp [ANotifier.send, fallbackSend, hm, hy, hsy]

/-- Witness for C7 at a concrete registry without the first-named channel. -/
theorem fallback_missing_name_skipped_witness :
    lookupChannel [⟨"y", wChOk⟩] "nope" = none
    ∧ lookupChannel [⟨"y", wChOk⟩] "y" = some wChOk
    ∧ wChOk.send "m" (resolve_recipients none wChOk) = .ok ()
    ∧ ANotifier.send ⟨[⟨"y", wChOk⟩], ["nope", "y"]⟩ "m" none =
        ⟨[⟨"y", wChOk, resolve_recipients none wChOk⟩], ["nope"], .ok ()⟩ :=
  ⟨rfl, rfl, rfl,
    fallback_missing_name_skipped [⟨"y", wChOk⟩] "nope" "y" wChOk "m" none
      rfl rfl rfl⟩

/-- C8: the synchronous adapter's `send` (fresh `ANotifier` populated with the
same registry and fallback order, driven to completion by `asyncio.run`)
produces the identical result — same outcome, same invocations in the same
order, same warnings — as the asynchronous engine's `send`. -/
theorem sync_adapter_matches_async (channels : List RegEntry)
    (order : List String) (message : String)
    (recipients : Option (List BaseRecipient)) :
    Notifier.send ⟨channels, order⟩ message recipients =
      ANotifier.send ⟨channels, order⟩ message recipients := rfl

/-- C9: `send` leaves the engine state untouched: the channel registry and
the fallback order after the call are those before it, for every mode, input
and outcome. -/
theorem send_preserves_registry_and_order (n : ANotifier) (message : String)
    (recipients : Option (List BaseRecipient)) :
    (ANotifier.sendSt n message recipients).1.channels = n.channels
    ∧ (ANotifier.sendSt n message recipients).1.fallback_order = n.fallback_order :=
  ⟨rfl, rfl⟩

/-- C10: with an empty registry and no fallback order, `send` is a silent
no-op: no invocation, no warning, success. -/
theorem empty_engine_send_is_noop (n : ANotifier) (message : String)
    (recipients : Option (List BaseRecipient))
    (hc : n.channels = []) (hf : n.fallback_order = []) :
    n.send message recipients = ⟨[], [], .ok ()⟩ := by
  cases n
  cases hc
  cases hf
  rfl

/-- Witness for C10 at the empty engine. -/
theorem empty_engine_send_is_noop_witness :
    (ANotifier.mk [] []).channels = []
    ∧ (ANotifier.mk [] []).fallback_order = []
    ∧ ANotifier.send ⟨[], []⟩ "m" none = ⟨[], [], .ok ()⟩ :=
  ⟨rfl, rfl, empty_engine_send_is_noop ⟨[], []⟩ "m" none rfl rfl⟩

/-- C4 counterexample: calling `send` with the explicit empty recipient list
does not hand the empty list to the invoked channel — the Python truthiness
test `recipients or channel.recipients` makes the channel receive its own
configured default recipients instead. -/
theorem explicit_empty_recipients_falls_back :
    ((ANotifier.send ⟨[⟨"a", wChOk⟩], []⟩ "m" (some [])).invocations.map
        (fun i => i.recipients)) = [[wRecA]]
    ∧ ([wRecA] : List BaseRecipient) ≠ [] := ⟨rfl, by simp⟩

/-- C4 as amended: with an explicit non-empty recipient list every invoked
channel receives exactly that list; with the argument omitted, or explicitly
the empty list (which Python's `or` treats as falsy), each invoked channel
receives its own configured default recipients. -/
theorem recipients_resolution (n : ANotifier) (message : String) :
    (∀ rs : List BaseRecipient, rs ≠ [] →
      ∀ inv ∈ (n.send message (some rs)).invocations, inv.recipients = rs)
    ∧ (∀ inv ∈ (n.send message none).invocations,
        inv.recipients = inv.channel.recipients)
    ∧ (∀ inv ∈ (n.send message (some [])).invocations,
        inv.recipients = inv.channel.recipients) := by
  refine ⟨?_, ?_, ?_⟩
  · intro rs hrs inv hmem
    have h := send_inv_recipients n message (some rs) inv hmem
    cases rs with
    | nil => exact absurd rfl hrs
    | cons a as => simpa [resolve_recipients] using h
  · intro inv hmem
    simpa [resolve_recipients] using send_inv_recipients n message none inv hmem
  · intro inv hmem
    simpa [resolve_recipients] using send_inv_recipients n message (some []) inv hmem

/-- Witness for the amended C4 at a concrete engine and explicit non-empty
list. -/
theorem recipients_resolution_witness :
    ([wRecB] : List BaseRecipient) ≠ []
    ∧ (⟨"a", wChOk, [wRecB]⟩ : Invocation) ∈
        (ANotifier.send ⟨[⟨"a", wChOk⟩], []⟩ "m" (some [wRecB])).invocations
    ∧ (⟨"a", wChOk, [wRecB]⟩ : Invocation).recipients = [wRecB] := by
  have hmem : (⟨"a", wChOk, [wRecB]⟩ : Invocation) ∈
      (ANotifier.send ⟨[⟨"a", wChOk⟩], []⟩ "m" (some [wRecB])).invocations := by
    show (⟨"a", wChOk, [wRecB]⟩ : Invocation) ∈ [(⟨"a", wChOk, [wRecB]⟩ : Invocation)]
    exact List.mem_singleton.mpr rfl
  exact ⟨by simp, hmem,
    (recipients_resolution ⟨[⟨"a", wChOk⟩], []⟩ "m").1 [wRecB] (by simp) _ hmem⟩

/-- When every recipient's bot-API post returns 200, the Telegram loop
attempts all recipients in order and succeeds. -/
theorem telegram_loop_all_ok (c : TelegramChannel) (message : String) :
    ∀ rs : List BaseRecipient,
      (∀ r ∈ rs,
        (c.net ("https://api.telegram.org/bot" ++ c.bot_token ++ "/sendMessage")
          r.id message).status = 200) →
      TelegramChannel.sendLoop c message rs = (rs, .ok ())
  | [], _ => rfl
  | r :: rest, h => by
    have hr := h r (List.mem_cons_self _ _)
    have ih := telegram_loop_all_ok c message rest
      (fun x hx => h x (List.mem_cons_of_mem _ hx))
    simp [TelegramChannel.sendLoop, hr, ih]

/-- The Telegram loop raises at the first recipient whose post is non-200 and
attempts none of the recipients after it. -/
theorem telegram_loop_first_fail (c : TelegramChannel) (message : String) :
    ∀ (pre : List BaseRecipient) (bad : BaseRecipient) (post : List BaseRecipient),
      (∀ r ∈ pre,
        (c.net ("https://api.telegram.org/bot" ++ c.bot_token ++ "/sendMessage")
          r.id message).status = 200) →
      (c.net ("https://api.telegram.org/bot" ++ c.bot_token ++ "/sendMessage")
        bad.id message).status ≠ 200 →
      TelegramChannel.sendLoop c message (pre ++ bad :: post) =
        (pre ++ [bad],
         .error ⟨"Failed to send to " ++ bad.name ++ ": " ++
           (c.net ("https://api.telegram.org/bot" ++ c.bot_token ++ "/sendMessage")
             bad.id message).text⟩)
  | [], bad, post, _, hbad => by simp [TelegramChannel.sendLoop, hbad]
  | r :: rest, bad, post, h, hbad => by
    have hr := h r (List.mem_cons_self _ _)
    have ih := telegram_loop_first_fail c message rest bad post
      (fun x hx => h x (List.mem_cons_of_mem _ hx)) hbad
    simp [TelegramChannel.sendLoop, hr, ih]

/-- When every recipient's SMTP send succeeds, the email loop attempts all
recipients in order (coercing bare address strings) and succeeds. -/
theorem email_loop_all_ok (c : EmailChannel) (message subject : String) :
    ∀ rs : List (Sum String BaseRecipient),
      (∀ r0 ∈ rs, c.smtp ⟨c.smtp_user, (EmailChannel.coerceRecipient r0).id,
        subject, message⟩ = none) →
      EmailChannel.sendLoop c message subject rs =
        (rs.map EmailChannel.coerceRecipient, .ok ())
  | [], _ => rfl
  | r0 :: rest, h => by
    have hr := h r0 (List.mem_cons_self _ _)
    have ih := email_loop_all_ok c message subject rest
      (fun x hx => h x (List.mem_cons_of_mem _ hx))
    simp [EmailChannel.sendLoop, hr, ih]

/-- The email loop raises at the first recipient whose SMTP send throws and
attempts none of the recipients after it. -/
theorem email_loop_first_fail (c : EmailChannel) (message subject : String) :
    ∀ (pre : List (Sum String BaseRecipient)) (bad : Sum String BaseRecipient)
      (post : List (Sum String BaseRecipient)) (e : String),
      (∀ r0 ∈ pre, c.smtp ⟨c.smtp_user, (EmailChannel.coerceRecipient r0).id,
        subject, message⟩ = none) →
      c.smtp ⟨c.smtp_user, (EmailChannel.coerceRecipient bad).id,
        subject, message⟩ = some e →
      EmailChannel.sendLoop c message subject (pre ++ bad :: post) =
        (pre.map EmailChannel.coerceRecipient ++ [EmailChannel.coerceRecipient bad],
         .error ⟨"Failed to send email to " ++
           (EmailChannel.coerceRecipient bad).name ++ ": " ++ e⟩)
  | [], bad, post, e, _, hbad => by simp [EmailChannel.sendLoop, hbad]
  | r0 :: rest, bad, post, e, h, hbad => by
    have hr := h r0 (List.mem_cons_self _ _)
    have ih := email_loop_first_fail c message subject rest bad post e
      (fun x hx => h x (List.mem_cons_of_mem _ hx)) hbad
    simp [EmailChannel.sendLoop, hr, ih]

/-- When every recipient's webhook post returns 200, the webhook loop
attempts all recipients in order (coercing strings) and succeeds. -/
theorem webhook_loop_all_ok (c : WebhookChannel) (message : String) :
    ∀ rs : List (Sum String BaseRecipient),
      (∀ r0 ∈ rs, (c.net c.webhook_url
        (WebhookChannel.coerceRecipient r0).id message).status = 200) →
      WebhookChannel.sendLoop c message rs =
        (rs.map WebhookChannel.coerceRecipient, .ok ())
  | [], _ => rfl
  | r0 :: rest, h => by
    have hr := h r0 (List.mem_cons_self _ _)
    have ih := webhook_loop_all_ok c message rest
      (fun x hx => h x (List.mem_cons_of_mem _ hx))
    simp [WebhookChannel.sendLoop, hr, ih]

/-- The webhook loop raises at the first recipient whose post is non-200 and
attempts none of the recipients after it. -/
theorem webhook_loop_first_fail (c : WebhookChannel) (message : String) :
    ∀ (pre : List (Sum String BaseRecipient)) (bad : Sum String BaseRecipient)
      (post : List (Sum String BaseRecipient)),
      (∀ r0 ∈ pre, (c.net c.webhook_url
        (WebhookChannel.coerceRecipient r0).id message).status = 200) →
      (c.net c.webhook_url (WebhookChannel.coerceRecipient bad).id message).status ≠ 200 →
      WebhookChannel.sendLoop c message (pre ++ bad :: post) =
        (pre.map WebhookChannel.coerceRecipient ++ [WebhookChannel.coerceRecipient bad],
         .error ⟨"Failed to send to " ++ (WebhookChannel.coerceRecipient bad).name⟩)
  | [], bad, post, _, hbad => by simp [WebhookChannel.sendLoop, hbad]
  | r0 :: rest, bad, post, h, hbad => by
    have hr := h r0 (List.mem_cons_self _ _)
    have ih := webhook_loop_first_fail c message rest bad post
      (fun x hx => h x (List.mem_cons_of_mem _ hx)) hbad
    simp [WebhookChannel.sendLoop, hr, ih]

/-- Concrete Telegram channel for which the first default recipient's
delivery fails and the second succeeds. -/
def wTgCE : TelegramChannel :=
  ⟨"tok", [wRecA, wRecB],
   fun _ chatId _ => if chatId == "1" then ⟨500, "err"⟩ else ⟨200, "ok"⟩⟩

/-- C5 counterexample: the Telegram channel does not attempt all recipients
when one fails — with defaults `[A, B]` where delivery to `A` fails and
delivery to `B` would succeed, `send` raises after attempting only `A`; `B`,
though in the list, is never attempted. -/
theorem channel_send_short_circuits :
    (TelegramChannel.send wTgCE "m" none).1 = [wRecA]
    ∧ wRecB ∈ wTgCE.recipients
    ∧ wRecB ∉ (TelegramChannel.send wTgCE "m" none).1
    ∧ (TelegramChannel.send wTgCE "m" none).2 =
        .error ⟨"Failed to send to A: err"⟩ :=
  ⟨rfl, by simp [wTgCE], by decide, rfl⟩

/-- C5 as amended: each concrete channel (Telegram, email, webhook) attempts
its given recipients in order but short-circuits on failure: it raises a
`DeliveryError` at the first recipient whose delivery fails, without
attempting the remaining recipients, and it attempts every recipient exactly
when all deliveries succeed (in which case it reports success). -/
theorem channels_stop_at_first_recipient_failure :
    (∀ (c : TelegramChannel) (message : String) (rs : List BaseRecipient),
      (∀ r ∈ rs,
        (c.net ("https://api.telegram.org/bot" ++ c.bot_token ++ "/sendMessage")
          r.id message).status = 200) →
      TelegramChannel.send c message (some rs) = (rs, .ok ()))
    ∧ (∀ (c : TelegramChannel) (message : String) (pre : List BaseRecipient)
          (bad : BaseRecipient) (post : List BaseRecipient),
        (∀ r ∈ pre,
          (c.net ("https://api.telegram.org/bot" ++ c.bot_token ++ "/sendMessage")
            r.id message).status = 200) →
        (c.net ("https://api.telegram.org/bot" ++ c.bot_token ++ "/sendMessage")
          bad.id message).status ≠ 200 →
        TelegramChannel.send c message (some (pre ++ bad :: post)) =
          (pre ++ [bad],
           .error ⟨"Failed to send to " ++ bad.name ++ ": " ++
             (c.net ("https://api.telegram.org/bot" ++ c.bot_token ++ "/sendMessage")
               bad.id message).text⟩))
    ∧ (∀ (c : EmailChannel) (message subject : String)
          (rs : List (Sum String BaseRecipient)),
        (∀ r0 ∈ rs, c.smtp ⟨c.smtp_user, (EmailChannel.coerceRecipient r0).id,
          subject, message⟩ = none) →
        EmailChannel.send c message subject (some rs) =
          (rs.map EmailChannel.coerceRecipient, .ok ()))
    ∧ (∀ (c : EmailChannel) (message subject : String)
          (pre : List (Sum String BaseRecipient)) (bad : Sum String BaseRecipient)
          (post : List (Sum String BaseRecipient)) (e : String),
        (∀ r0 ∈ pre, c.smtp ⟨c.smtp_user, (EmailChannel.coerceRecipient r0).id,
          subject, message⟩ = none) →
        c.smtp ⟨c.smtp_user, (EmailChannel.coerceRecipient bad).id,
          subject, message⟩ = some e →
        EmailChannel.send c message subject (some (pre ++ bad :: post)) =
          (pre.map EmailChannel.coerceRecipient ++ [EmailChannel.coerceRecipient bad],
           .error ⟨"Failed to send email to " ++
             (EmailChannel.coerceRecipient bad).name ++ ": " ++ e⟩))
    ∧ (∀ (c : WebhookChannel) (message : String)
          (rs : List (Sum String BaseRecipient)),
        (∀ r0 ∈ rs, (c.net c.webhook_url
          (WebhookChannel.coerceRecipient r0).id message).status = 200) →
        WebhookChannel.send c message (some rs) =
          (rs.map WebhookChannel.coerceRecipient, .ok ()))
    ∧ (∀ (c : WebhookChannel) (message : String)
          (pre : List (Sum String BaseRecipient)) (bad : Sum String BaseRecipient)
          (post : List (Sum String BaseRecipient)),
        (∀ r0 ∈ pre, (c.net c.webhook_url
          (WebhookChannel.coerceRecipient r0).id message).status = 200) →
        (c.net c.webhook_url (WebhookChannel.coerceRecipient bad).id message).status ≠ 200 →
        WebhookChannel.send c message (some (pre ++ bad :: post)) =
          (pre.map WebhookChannel.coerceRecipient ++ [WebhookChannel.coerceRecipient bad],
           .error ⟨"Failed to send to " ++ (WebhookChannel.coerceRecipient bad).name⟩)) := by
  refine ⟨?_, ?_, ?_, ?_, ?_, ?_⟩
  · intro c message rs h
    exact telegram_loop_all_ok c message rs h
  · intro c message pre bad post h hbad
    exact telegram_loop_first_fail c message pre bad post h hbad
  · intro c message subject rs h
    exact email_loop_all_ok c message subject rs h
  · intro c message subject pre bad post e h hbad
    exact email_loop_first_fail c message subject pre bad post e h hbad
  · intro c message rs h
    exact webhook_loop_all_ok c message rs h
  · intro c message pre bad post h hbad
    exact webhook_loop_first_fail c message pre bad post h hbad

/-- Witness for the amended C5 at the concrete Telegram channel: first
recipient fails, second would succeed, so the attempt list stops at the
first. -/
theorem channels_stop_at_first_recipient_failure_witness :
    (∀ r ∈ ([] : List BaseRecipient),
      (wTgCE.net ("https://api.telegram.org/bot" ++ wTgCE.bot_token ++ "/sendMessage")
        r.id "m").status = 200)
    ∧ (wTgCE.net ("https://api.telegram.org/bot" ++ wTgCE.bot_token ++ "/sendMessage")
        wRecA.id "m").status ≠ 200
    ∧ TelegramChannel.send wTgCE "m" (some ([] ++ wRecA :: [wRecB])) =
        ([] ++ [wRecA],
         .error ⟨"Failed to send to " ++ wRecA.name ++ ": " ++
           (wTgCE.net ("https://api.telegram.org/bot" ++ wTgCE.bot_token ++ "/sendMessage")
             wRecA.id "m").text⟩) :=
  ⟨by simp, by decide,
    (channels_stop_at_first_recipient_failure.2.1) wTgCE "m" [] wRecA [wRecB]
      (by simp) (by decide)⟩

/-- Registering the same channel `k` times with no explicit name — the
iterated `add_channel(channel)` call sequence. -/
def addAutoIter (n : ANotifier) (c : Channel) :
    Nat → Except ConfigurationError ANotifier
  | 0 => .ok n
  | k + 1 =>
    match addAutoIter n c k with
    | .error e => .error e
    | .ok m => m.add_channel c none

/-- The name sequence the auto-namer produces for `k` colliding registrations
of the same base: `base`, `base_1`, `base_2`, and so on. -/
def expected_auto_names (base : String) : Nat → List String
  | 0 => []
  | k + 1 => expected_auto_names base k ++
      [if k = 0 then base else base ++ "_" ++ toString k]

/-- Appending strings appends their code points. -/
theorem string_data_append (s t : String) : (s ++ t).data = s.data ++ t.data := rfl

/-- Code-point prefixes certify `pystartswith`. -/
theorem pystartswith_of_prefix (s pre : String) (h : pre.data <+: s.data) :
    pystartswith s pre = true := by
  simp [pystartswith, List.isPrefixOf_iff_prefix, h]

/-- Every string starts with itself. -/
theorem pystartswith_self (s : String) : pystartswith s s = true :=
  pystartswith_of_prefix s s (List.prefix_refl _)

/-- A string starts with anything it extends on the right. -/
theorem pystartswith_append (s t : String) : pystartswith (s ++ t) s = true :=
  pystartswith_of_prefix (s ++ t) s
    (by rw [string_data_append]; exact List.prefix_append _ _)

/-- Every name the auto-namer generates for a base starts with that base. -/
theorem expected_auto_names_startsWith (base : String) :
    ∀ k, ∀ nm ∈ expected_auto_names base k, pystartswith nm base = true
  | 0, nm, hmem => by simp [expected_auto_names] at hmem
  | k + 1, nm, hmem => by
    rw [expected_auto_names, List.mem_append, List.mem_singleton] at hmem
    rcases hmem with h | rfl
    · exact expected_auto_names_startsWith base k nm h
    · by_cases hk : k = 0
      · simpa [hk] using pystartswith_self base
      · rw [if_neg hk]
        have : base ++ "_" ++ toString k = base ++ ("_" ++ toString k) := by
          apply congrArg String.mk
          simp [string_data_append, List.append_assoc]
        rw [this]
        exact pystartswith_append base ("_" ++ toString k)

/-- The auto-namer generates one name per registration. -/
theorem expected_auto_names_length (base : String) :
    ∀ k, (expected_auto_names base k).length = k
  | 0 => rfl
  | k + 1 => by
    rw [expected_auto_names, List.length_append, expected_auto_names_length base k]
    rfl

/-- Concrete channel whose class name contains "channel" in a non-trailing
position. -/
def wChClassMock : Channel := ⟨"ChannelMock", [wRecA], none, fun _ _ => .ok ()⟩

/-- Concrete channel with the usual trailing-"Channel" class name. -/
def wChMockName : Channel := ⟨"MockChannel", [wRecA], none, fun _ _ => .ok ()⟩

/-- C6 counterexample: for the class tag "ChannelMock" the code derives the
base name "mock" — `replace` removes every occurrence of "channel" in the
lower-cased tag — while the claim's trailing-suffix-strip rule would leave
"channelmock" untouched. -/
theorem auto_name_strips_all_occurrences :
    ANotifier.add_channel ⟨[], []⟩ wChClassMock none =
      .ok ⟨[⟨"mock", wChClassMock⟩], []⟩
    ∧ specBaseName "ChannelMock" = "channelmock"
    ∧ ("mock" : String) ≠ "channelmock" :=
  ⟨rfl, by decide, by decide⟩

/-- C6 as amended: the derived base name is the lower-cased class tag with
every occurrence of "channel" removed (not only a trailing suffix); starting
from a registry in which no name starts with that base, the Nth colliding
auto-named registration receives `base`, `base_1`, `base_2`, … in
registration order, the suffix number being the count at registration time of
already-registered names starting with the base. -/
theorem auto_naming_sequence (n : ANotifier) (c : Channel) (base : String)
    (hv : c.validate_config = none)
    (hbase : base = pyreplace (pylower c.className) "channel" "")
    (hfresh : ∀ e ∈ n.channels, pystartswith e.name base = false) :
    ∀ k, addAutoIter n c k =
      .ok ⟨n.channels ++ (expected_auto_names base k).map
            (fun nm => ⟨nm, c⟩),
           n.fallback_order⟩ := by
  intro k
  induction k with
  | zero => simp [addAutoIter, expected_auto_names]
  | succ k ih =>
    have hfil1 : n.channels.filter (fun ch => pystartswith ch.name base) = [] := by
      rw [List.filter_eq_nil_iff]
      intro a ha
      simp [hfresh a ha]
    have hfil2 : ((expected_auto_names base k).map
          (fun nm => RegEntry.mk nm c)).filter
            (fun ch => pystartswith ch.name base)
        = (expected_auto_names base k).map (fun nm => RegEntry.mk nm c) := by
      rw [List.filter_eq_self]
      intro a ha
      simp only [List.mem_map] at ha
      obtain ⟨nm, hnm, rfl⟩ := ha
      exact expected_auto_names_startsWith base k nm hnm
    have hsim : autoName
        (n.channels ++ (expected_auto_names base k).map (fun nm => RegEntry.mk nm c))
        c.className = if k = 0 then base else base ++ "_" ++ toString k := by
      simp only [autoName, ← hbase, List.filter_append, hfil1, hfil2,
        List.nil_append]
      by_cases hk : k = 0
      · subst hk
        simp [expected_auto_names]
      · have hlen : ((expected_auto_names base k).map
            (fun nm => RegEntry.mk nm c)).length = k := by
          rw [List.length_map, expected_auto_names_length]
        have hemp : ((expected_auto_names base k).map
            (fun nm => RegEntry.mk nm c)).isEmpty = false := by
          rw [List.isEmpty_eq_false]
          intro hcon
          exact hk (by rw [← hlen, hcon]; rfl)
        rw [hemp, hlen, if_neg hk]
        simp
    rw [addAutoIter, ih]
    show ANotifier.add_channel _ c none = _
    rw [ANotifier.add_channel]
    simp only [hv, hsim]
    rw [expected_auto_names, List.map_append, ← List.append_assoc]
    rfl

/-- Witness for the amended C6: three anonymous registrations of a
"MockChannel"-tagged channel into an empty engine yield the names `mock`,
`mock_1`, `mock_2`. -/
theorem auto_naming_sequence_witness :
    wChMockName.validate_config = none
    ∧ ("mock" : String) = pyreplace (pylower wChMockName.className) "channel" ""
    ∧ (∀ e ∈ ([] : List RegEntry), pystartswith e.name "mock" = false)
    ∧ addAutoIter ⟨[], []⟩ wChMockName 3 =
        .ok ⟨([] : List RegEntry) ++ (expected_auto_names "mock" 3).map
              (fun nm => ⟨nm, wChMockName⟩), []⟩ :=
  ⟨rfl, by decide, by simp,
    auto_naming_sequence ⟨[], []⟩ wChMockName "mock" rfl (by decide) (by simp) 3⟩

end Snotify
